import Mathlib

/-!
Shallow embedding of the mail-queue handler in
`firestore-send-email/functions/lib/index.js`.

The handler reacts to document-change events.  We model the observable
behaviour of one invocation as the list of operations it performs
(transactional document updates, mail-transport calls, log calls), in
the order the code performs them.  Timestamps are milliseconds as `Nat`
(`Date.now()` / `Timestamp.fromMillis`); `serverTimestamp` sentinel
values are kept symbolic.  JavaScript exceptions are modelled with
`Except String`, the string being the `toString()` rendering of the
thrown value (`new Error(msg)` renders as `"Error: " ++ msg`).
-/

/-- Field values written by `transaction.update`.  `deliveryInitObj`
models the object literal `{ startTime, state, attempts, error }`
written by `processCreate` for the whole `delivery` field. -/
inductive Value where
  | null
  | str (s : String)
  | num (n : Nat)
  | timestamp (millis : Nat)
  | serverTimestamp
  | increment (n : Nat)
  | info (messageId : Option String) (accepted rejected pending : List String)
      (response : Option String)
  | deliveryInitObj (startTime state attempts error : Value)
deriving DecidableEq, Repr

/-- A recipient-typed field of the document (`to`, `cc`, `bcc`,
`toUids`, `ccUids`, `bccUids`).  JavaScript values are quotiented to
the cases the code distinguishes: absent/null (falsy, not a string),
a string, an array of strings, and any other truthy value (non-array,
or an array with a non-string element) on which `validateFieldArray`
throws. -/
inductive Recip where
  | absent
  | str (s : String)
  | strArr (xs : List String)
  | badArr
deriving DecidableEq, Repr

/-- JavaScript truthiness of a `Recip` value (`if (payload.to)` …):
absent/null is falsy, a string is truthy iff non-empty, arrays and
other objects are truthy (including the empty array). -/
def Recip.truthy : Recip → Bool
  | .absent => false
  | .str s => s ≠ ""
  | .strArr _ => true
  | .badArr => true

/-- Message body fields (subject, html, text, …): a JS object modelled
as an insertion-ordered association list of string fields. -/
abbrev Msg := List (String × String)

/-- `target[k] = v` on a JS object: replace in place if the key exists,
else append. -/
def setKey (m : Msg) (k v : String) : Msg :=
  if m.any (fun p => decide (p.1 = k)) then
    m.map (fun p => if p.1 = k then (k, v) else p)
  else m ++ [(k, v)]

/-- `Object.assign(target, source)`: copy every field of `source` onto
`target` in order, overwriting existing keys. -/
def objAssign (target source : Msg) : Msg :=
  source.foldl (fun acc p => setKey acc p.1 p.2) target

/-- Read a field of a JS object (`undefined` as `none`). -/
def getKey (m : Msg) (k : String) : Option String :=
  (m.find? (fun p => decide (p.1 = k))).map (fun p => p.2)

/-- The `template` field: `{ name, data }`. -/
structure Template where
  name : Option String
  data : List (String × String)
deriving DecidableEq, Repr

/-- The fields of the `delivery` sub-record that the handler reads
(`delivery.state`, `delivery.leaseExpireTime`); all writes to the
sub-record go through update field paths and appear in the trace. -/
structure Delivery where
  state : Option String
  leaseExpireTime : Option Nat
deriving DecidableEq, Repr

/-- The data of a queue document, as read by `change.after.data()`.
`fromAddr` models the `from` field (`from` is a Lean keyword). -/
structure DocData where
  template : Option Template
  message : Option Msg
  «to» : Recip
  cc : Recip
  bcc : Recip
  toUids : Recip
  ccUids : Recip
  bccUids : Recip
  fromAddr : Option String
  replyTo : Option String
  headers : Option (List (String × String))
  delivery : Option Delivery
deriving DecidableEq, Repr

/-- Result of `preparePayload`: the payload with `to`/`cc`/`bcc`
replaced by concrete address lists and `message` possibly extended by
the rendered template. -/
structure Prepared where
  «to» : List String
  cc : List String
  bcc : List String
  message : Option Msg
  fromAddr : Option String
  replyTo : Option String
  headers : Option (List (String × String))
deriving DecidableEq, Repr

/-- Per-recipient acceptance data returned by `transport.sendMail`,
already normalized the way `deliver` records it in `delivery.info`
(`result.messageId || null`, `result.accepted || []`, …). -/
structure SendInfo where
  messageId : Option String
  accepted : List String
  rejected : List String
  pending : List String
  response : Option String
deriving DecidableEq, Repr

/-- The message handed to `transport.sendMail`:
`Object.assign(payload.message, {from, replyTo, to, cc, bcc, headers})`.
We keep the merged-in fields structurally next to the body fields. -/
structure ComposedMsg where
  message : Msg
  fromAddr : String
  replyTo : Option String
  «to» : List String
  cc : List String
  bcc : List String
  headers : List (String × String)
deriving DecidableEq, Repr

/-- Call sites of the `logs` module inside `index.js`. -/
inductive LogEvent where
  | start
  | complete
  | attemptingDelivery
  | delivered (r : SendInfo)
  | deliveryError (e : String)
  | missingUids (uids : List String)
  | missingDeliveryField
  | errorLog (e : String)
deriving DecidableEq, Repr

/-- One observable operation of an invocation: a `transaction.update`
on the queue document (list of field-path/value pairs), a call to the
mail transport, or a log call. -/
inductive Op where
  | txUpdate (fields : List (String × Value))
  | sendMail (msg : ComposedMsg)
  | log (e : LogEvent)
deriving DecidableEq, Repr

/-- The environment: configuration and injected collaborators.
`templates` is `some` exactly when a templates collection is
configured; `userEmail` is the batched user lookup (the `email`
attribute of the user document, `none` when the document is missing
or has no email); `sendMail` is the mail transport. -/
structure Env where
  templates : Option (String → List (String × String) → Msg)
  usersCollection : Bool
  userEmail : String → Option String
  defaultFrom : String
  defaultReplyTo : Option String
  sendMail : ComposedMsg → Except String SendInfo

/-- A document snapshot: missing (`!snap.exists`) or present with data. -/
inductive Snap where
  | missing
  | doc (d : DocData)
deriving DecidableEq, Repr

/-- The before/after snapshot pair of a change event. -/
structure Change where
  before : Snap
  after : Snap
deriving DecidableEq, Repr

/-- `x || d` for an optional string against a string default
(the empty string is falsy). -/
def jsOrStr (x : Option String) (d : String) : String :=
  match x with
  | none => d
  | some s => if s = "" then d else s

/-- `x || d` for two optional strings. -/
def jsOrOpt (x d : Option String) : Option String :=
  match x with
  | none => d
  | some s => if s = "" then d else some s

/-- `toFetch[uid]`: the email looked up for a uid, normalized the way
the fetch loop stores it (`if (email)` — the empty string counts as
missing). -/
def fetchEmail (env : Env) (uid : String) : Option String :=
  match env.userEmail uid with
  | none => none
  | some e => if e = "" then none else some e

/-- First-occurrence deduplication, as `Object.keys(toFetch)` yields
the distinct uids in insertion order. -/
def dedupFirstAux : List String → List String → List String
  | [], _ => []
  | x :: xs, seen =>
    if x ∈ seen then dedupFirstAux xs seen
    else x :: dedupFirstAux xs (x :: seen)

def dedupFirst (xs : List String) : List String := dedupFirstAux xs []

/-- The `to`/`cc`/`bcc` normalization in `preparePayload`: a string
becomes a one-element list, a falsy value contributes nothing, an
array is validated by `validateFieldArray` (throwing on a non-array
truthy value or a non-string element). -/
def normalizeAddrs (field : String) (r : Recip) : Except String (List String) :=
  match r with
  | .str s => .ok [s]
  | .absent => .ok []
  | .strArr xs => .ok xs
  | .badArr =>
    .error ("Error: Invalid field \"" ++ field ++ "\". Expected an array of strings.")

/-- The `*Uids` handling: `if (payload.toUids) { validateFieldArray(…);
uids.concat(…) }`.  A falsy field contributes nothing; a truthy
non-array (including a non-empty string) makes `validateFieldArray`
throw. -/
def validateUids (field : String) (r : Recip) : Except String (List String) :=
  if r.truthy then
    match r with
    | .strArr xs => .ok xs
    | _ =>
      .error ("Error: Invalid field \"" ++ field ++ "\". Expected an array of strings.")
  else .ok []

/-- `preparePayload`.  Returns the prepared payload together with the
argument of the `logs.missingUids` call when the uid-resolution branch
ran (`none` when the early-return branch was taken); the call happens
after every possible throw of the function, so an error implies no log
was emitted. -/
def preparePayload (env : Env) (d : DocData) :
    Except String (Prepared × Option (List String)) := do
  let message ←
    match env.templates, d.template with
    | some tf, some t =>
      match t.name with
      | none => Except.error "Error: Template object is missing a \x27name\x27 parameter."
      | some n =>
        if n = "" then
          Except.error "Error: Template object is missing a \x27name\x27 parameter."
        else
          Except.ok (some (objAssign (d.message.getD []) (tf n t.data)))
    | _, _ => Except.ok d.message
  let «to» ← normalizeAddrs "to" d.to
  let cc ← normalizeAddrs "cc" d.cc
  let bcc ← normalizeAddrs "bcc" d.bcc
  if ¬ d.toUids.truthy ∧ ¬ d.ccUids.truthy ∧ ¬ d.bccUids.truthy then
    Except.ok ({ «to» := «to», cc := cc, bcc := bcc, message := message,
                 fromAddr := d.fromAddr, replyTo := d.replyTo,
                 headers := d.headers }, none)
  else if ¬ env.usersCollection then
    Except.error "Error: Must specify a users collection to send using uids."
  else do
    let tos ← validateUids "toUids" d.toUids
    let ccs ← validateUids "ccUids" d.ccUids
    let bccs ← validateUids "bccUids" d.bccUids
    let uids := tos ++ ccs ++ bccs
    let missing := (dedupFirst uids).filter (fun u => decide (fetchEmail env u = none))
    Except.ok ({ «to» := «to» ++ tos.filterMap (fetchEmail env),
                 cc := cc ++ ccs.filterMap (fetchEmail env),
                 bcc := bcc ++ bccs.filterMap (fetchEmail env),
                 message := message,
                 fromAddr := d.fromAddr, replyTo := d.replyTo,
                 headers := d.headers }, some missing)

/-- The base of the `deliver` update object, built before the try/catch:
`attempts` increment, `endTime`, `error` cleared, lease cleared. -/
def baseUpdate : List (String × Value) :=
  [("delivery.attempts", .increment 1),
   ("delivery.endTime", .serverTimestamp),
   ("delivery.error", .null),
   ("delivery.leaseExpireTime", .null)]

/-- `update[k] = v` on the JS update object: replace in place if the
key exists, else append. -/
def setField (u : List (String × Value)) (k : String) (v : Value) :
    List (String × Value) :=
  if u.any (fun p => decide (p.1 = k)) then
    u.map (fun p => if p.1 = k then (k, v) else p)
  else u ++ [(k, v)]

/-- The update committed by `deliver` on the catch path:
`update["delivery.state"] = "ERROR"; update["delivery.error"] = e.toString()`. -/
def deliverErrorUpdate (e : String) : List (String × Value) :=
  setField (setField baseUpdate "delivery.state" (.str "ERROR")) "delivery.error" (.str e)

/-- The update committed by `deliver` on the success path. -/
def deliverSuccessUpdate (r : SendInfo) : List (String × Value) :=
  setField (setField baseUpdate "delivery.state" (.str "SUCCESS")) "delivery.info"
    (.info r.messageId r.accepted r.rejected r.pending r.response)

/-- The argument of `transport.sendMail`. -/
def compose (env : Env) (p : Prepared) (m : Msg) : ComposedMsg :=
  { message := m
    fromAddr := jsOrStr p.fromAddr env.defaultFrom
    replyTo := jsOrOpt p.replyTo env.defaultReplyTo
    «to» := p.to
    cc := p.cc
    bcc := p.bcc
    headers := p.headers.getD [] }

/-- The `logs.missingUids` call emitted by `preparePayload` when its
uid-resolution branch ran. -/
def prepLogs : Option (List String) → List Op
  | none => []
  | some ms => [Op.log (.missingUids ms)]

/-- `deliver`: logs the attempt, prepares the payload, throws when no
recipient was resolved, calls the transport, and commits exactly one
transactional update recording the outcome.  Every throw is caught and
turned into the `ERROR` update; `deliver` never propagates an
exception.  A document without a `message` field reaching the compose
step throws a `TypeError` inside the try (`Object.assign(undefined, …)`). -/
def deliver (env : Env) (d : DocData) : List Op :=
  match preparePayload env d with
  | .error e =>
    [.log .attemptingDelivery, .log (.deliveryError e), .txUpdate (deliverErrorUpdate e)]
  | .ok (p, missed) =>
    if p.to.isEmpty && p.cc.isEmpty && p.bcc.isEmpty then
      [.log .attemptingDelivery] ++ prepLogs missed ++
        [.log (.deliveryError "Error: Failed to deliver email. Expected at least 1 recipient."),
         .txUpdate (deliverErrorUpdate
           "Error: Failed to deliver email. Expected at least 1 recipient.")]
    else
      match p.message with
      | none =>
        [.log .attemptingDelivery] ++ prepLogs missed ++
          [.log (.deliveryError "TypeError: Cannot convert undefined or null to object"),
           .txUpdate (deliverErrorUpdate
             "TypeError: Cannot convert undefined or null to object")]
      | some m =>
        match env.sendMail (compose env p m) with
        | .ok r =>
          [.log .attemptingDelivery] ++ prepLogs missed ++
            [.sendMail (compose env p m), .log (.delivered r),
             .txUpdate (deliverSuccessUpdate r)]
        | .error e =>
          [.log .attemptingDelivery] ++ prepLogs missed ++
            [.sendMail (compose env p m), .log (.deliveryError e),
             .txUpdate (deliverErrorUpdate e)]

/-- `LEASE_DURATION`: the inline literal `60000` (milliseconds) in the
claim transition `Date.now() + 60000`. -/
def LEASE_DURATION : Nat := 60000

/-- The update committed by `processCreate`. -/
def createUpdate : List (String × Value) :=
  [("delivery", .deliveryInitObj .serverTimestamp (.str "PENDING") (.num 0) .null)]

/-- The claim update of the PENDING/RETRY branch. -/
def claimUpdate (now : Nat) : List (String × Value) :=
  [("delivery.state", .str "PROCESSING"),
   ("delivery.leaseExpireTime", .timestamp (now + LEASE_DURATION))]

/-- The update committed by the lease-expiry branch.  Note the second
field path is the top-level `error`, not `delivery.error`. -/
def leaseExpiredUpdate : List (String × Value) :=
  [("delivery.state", .str "ERROR"),
   ("error", .str "Message processing lease expired.")]

/-- `processWrite`: dispatch on the change event and the observed
`delivery.state`.  `now` is `Date.now()` of this invocation.  The
result is the operation trace; `.error` models an uncaught exception
(reading `leaseExpireTime.toMillis()` off a missing lease). -/
def processWrite (env : Env) (now : Nat) (c : Change) : Except String (List Op) :=
  match c.after with
  | .missing => .ok []
  | .doc payload =>
    match c.before with
    | .missing => .ok [.txUpdate createUpdate]
    | .doc _ =>
      match payload.delivery with
      | none => .ok [.log .missingDeliveryField]
      | some del =>
        match del.state with
        | some "SUCCESS" => .ok []
        | some "ERROR" => .ok []
        | some "PROCESSING" =>
          match del.leaseExpireTime with
          | none =>
            .error "TypeError: Cannot read properties of undefined (reading \x27toMillis\x27)"
          | some t =>
            if t < now then .ok [.txUpdate leaseExpiredUpdate]
            else .ok []
        | some "PENDING" => .ok (.txUpdate (claimUpdate now) :: deliver env payload)
        | some "RETRY" => .ok (.txUpdate (claimUpdate now) :: deliver env payload)
        | _ => .ok []

/-- `processQueue`: the exported change handler.  `logs.start()` runs
before the try; a throw of `processWrite` is caught, logged via
`logs.error` and swallowed (`return null`), skipping `logs.complete()`. -/
def processQueue (env : Env) (now : Nat) (c : Change) : Except String (List Op) :=
  match processWrite env now c with
  | .ok ops => .ok (Op.log .start :: ops ++ [Op.log .complete])
  | .error e => .ok [Op.log .start, Op.log (.errorLog e)]

/-! ### Trace-counting helpers and concrete fixtures -/

/-- Does some transactional update in the trace write the given field
path? -/
def setsFieldPath (ops : List Op) (k : String) : Bool :=
  ops.any fun o =>
    match o with
    | .txUpdate fs => fs.any (fun p => decide (p.1 = k))
    | _ => false

/-- Is this operation a mail-transport invocation? -/
def isSend : Op → Bool
  | .sendMail _ => true
  | _ => false

/-- Is this operation a transactional update that increments
`delivery.attempts` by one? -/
def isAttemptIncrUpdate : Op → Bool
  | .txUpdate fs =>
    fs.any (fun p => decide (p.1 = "delivery.attempts" ∧ p.2 = Value.increment 1))
  | _ => false

/-- Number of mail-transport invocations in a trace. -/
def countSends (ops : List Op) : Nat := (ops.filter isSend).length

/-- Number of `delivery.attempts` increments in a trace. -/
def countAttemptIncrs (ops : List Op) : Nat := (ops.filter isAttemptIncrUpdate).length

/-- Whether `preparePayload` throws on this input. -/
def prepareFails (env : Env) (d : DocData) : Bool :=
  match preparePayload env d with
  | .error _ => true
  | .ok _ => false

/-- The `subject` field of the prepared message, when preparation
succeeds. -/
def preparedSubject (env : Env) (d : DocData) : Option String :=
  match preparePayload env d with
  | .ok (p, _) =>
    match p.message with
    | some m => getKey m "subject"
    | none => none
  | .error _ => none

/-- The resolved `to` list of the prepared payload (empty on failure). -/
def preparedTo (env : Env) (d : DocData) : List String :=
  match preparePayload env d with
  | .ok (p, _) => p.to
  | .error _ => []

/-- A fixed transport result for the concrete environments. -/
def info0 : SendInfo :=
  { messageId := some "m1", accepted := ["a@x.com"], rejected := [], pending := [],
    response := some "250 OK" }

/-- Concrete environment: no templates collection, no users collection,
a transport that accepts everything. -/
def env0 : Env :=
  { templates := none, usersCollection := false, userEmail := fun _ => none,
    defaultFrom := "noreply@x.com", defaultReplyTo := none,
    sendMail := fun _ => .ok info0 }

/-- A document with every optional field absent. -/
def docBase : DocData :=
  { template := none, message := none, «to» := .absent, cc := .absent, bcc := .absent,
    toUids := .absent, ccUids := .absent, bccUids := .absent,
    fromAddr := none, replyTo := none, headers := none, delivery := none }

/-- A document observed in `PROCESSING` whose lease expired at t=5ms. -/
def docProc : DocData :=
  { docBase with delivery := some { state := some "PROCESSING", leaseExpireTime := some 5 } }

/-- A document with a message body but no recipient of any kind. -/
def docNoRecip : DocData := { docBase with message := some [("subject", "s")] }

/-- Concrete environment with a configured templates collection whose
template `t` renders `subject = "Hi"`. -/
def envT : Env :=
  { env0 with templates := some (fun n _ => if n = "t" then [("subject", "Hi")] else []) }

/-- A document requesting template `t` and explicitly setting
`message.subject = "Bye"`. -/
def docT : DocData :=
  { docBase with message := some [("subject", "Bye")],
                 template := some { name := some "t", data := [] } }

/-- A document whose `template` object has no `name`. -/
def docNoName : DocData := { docBase with template := some { name := none, data := [] } }

/-- Concrete environment with a users collection where only uid `u1`
resolves (to `b@x.com`). -/
def envU : Env :=
  { env0 with usersCollection := true,
              userEmail := fun u => if u = "u1" then some "b@x.com" else none }

/-- A document with a direct `to` address and a `toUids` list. -/
def docU : DocData :=
  { docBase with «to» := .strArr ["a@x.com"], toUids := .strArr ["u1", "u2"],
                 message := some [("subject", "s")] }

/-- A document exercising every recipient branch of the uid path: a
string-form direct `to`, an array-form direct `cc`, no direct `bcc`,
`toUids` and `ccUids` present, `bccUids` absent. -/
def docU2 : DocData :=
  { docBase with «to» := .str "a@x.com", cc := .strArr ["c@x.com"],
                 toUids := .strArr ["u1", "u2"], ccUids := .strArr ["u1"],
                 message := some [("subject", "s")] }

/-- A document observed in `PROCESSING` with no `leaseExpireTime`
(reading it throws inside `processWrite`). -/
def docProcNoLease : DocData :=
  { docBase with delivery := some { state := some "PROCESSING", leaseExpireTime := none } }

/-- A deliverable document observed in `PENDING`. -/
def docPend : DocData :=
  { docBase with message := some [("subject", "s")], «to» := .str "a@x.com",
                 delivery := some { state := some "PENDING", leaseExpireTime := none } }

/-- A document observed in a terminal `SUCCESS` state. -/
def docSucc : DocData :=
  { docBase with delivery := some { state := some "SUCCESS", leaseExpireTime := none } }

/-- A document whose `delivery.state` holds an unrecognized value. -/
def docWeird : DocData :=
  { docBase with delivery := some { state := some "DONE", leaseExpireTime := none } }

/-! ### Theorems -/

/-- C1 (amended): an update event observing `delivery.state = "PROCESSING"`
with `leaseExpireTime` earlier than the current time commits exactly one
transactional update, setting `delivery.state` to `"ERROR"` and writing
the lease-expired description to the top-level `error` field of the
document (not to `delivery.error`), and invokes no mail transport. -/
theorem processWrite_lease_expired (env : Env) (now : Nat) (b d : DocData)
    (del : Delivery) (hdel : d.delivery = some del)
    (hstate : del.state = some "PROCESSING")
    (t : Nat) (hlease : del.leaseExpireTime = some t) (ht : t < now) :
    processWrite env now { before := .doc b, after := .doc d } =
      .ok [.txUpdate leaseExpiredUpdate] ∧
    leaseExpiredUpdate =
      [("delivery.state", .str "ERROR"),
       ("error", .str "Message processing lease expired.")] ∧
    countSends [Op.txUpdate leaseExpiredUpdate] = 0 := by
  refine ⟨?_, rfl, rfl⟩
  simp [processWrite, hdel, hstate, hlease, ht]

/-- C1 witness: the theorem applied to a concrete expired-lease document. -/
theorem processWrite_lease_expired_witness :
    processWrite env0 1000 { before := .doc docBase, after := .doc docProc } =
      .ok [.txUpdate leaseExpiredUpdate] ∧
    leaseExpiredUpdate =
      [("delivery.state", .str "ERROR"),
       ("error", .str "Message processing lease expired.")] ∧
    countSends [Op.txUpdate leaseExpiredUpdate] = 0 :=
  processWrite_lease_expired env0 1000 docBase docProc _ rfl rfl 5 rfl (by decide)

/-- C1 counterexample: at the concrete expired-lease input the committed
update does not write the `delivery.error` field at all — the
description goes to the top-level `error` field — refuting the claim
that the description is recorded as the delivery error. -/
theorem C1_counterexample :
    processWrite env0 1000 { before := .doc docBase, after := .doc docProc } =
      .ok [.txUpdate leaseExpiredUpdate] ∧
    setsFieldPath [Op.txUpdate leaseExpiredUpdate] "delivery.error" = false ∧
    setsFieldPath [Op.txUpdate leaseExpiredUpdate] "error" = true := by
  refine ⟨rfl, ?_, ?_⟩ <;> decide

/-- C3: an update event observing a terminal state (`SUCCESS` or
`ERROR`) produces an empty trace: no document mutation, no transport
call, nothing — repeated notifications leave the document unchanged. -/
theorem processWrite_terminal_noop (env : Env) (now : Nat) (b d : DocData)
    (del : Delivery) (hdel : d.delivery = some del)
    (hstate : del.state = some "SUCCESS" ∨ del.state = some "ERROR") :
    processWrite env now { before := .doc b, after := .doc d } = .ok [] := by
  rcases hstate with h | h <;> simp [processWrite, hdel, h]

/-- C3 witness: the theorem applied to a concrete `SUCCESS` document. -/
theorem processWrite_terminal_noop_witness :
    processWrite env0 0 { before := .doc docBase, after := .doc docSucc } = .ok [] :=
  processWrite_terminal_noop env0 0 docBase docSucc _ rfl (Or.inl rfl)

/-- C4: a creation event (before snapshot missing, after present)
commits exactly one transactional update, replacing the `delivery`
sub-record with `startTime = serverTimestamp` (the commit-time current
time), `state = "PENDING"`, `attempts = 0`, `error = null`; no delivery
attempt (no transport call) happens in that invocation. -/
theorem processWrite_create_sets_pending (env : Env) (now : Nat) (d : DocData) :
    processWrite env now { before := .missing, after := .doc d } =
      .ok [.txUpdate createUpdate] ∧
    createUpdate =
      [("delivery",
        .deliveryInitObj .serverTimestamp (.str "PENDING") (.num 0) .null)] ∧
    countSends [Op.txUpdate createUpdate] = 0 :=
  ⟨rfl, rfl, rfl⟩

/-- C10: an update event whose `delivery` field is present but whose
`delivery.state` is absent or not one of the five recognized states
falls through the dispatch with an empty trace — no mutation, no
transport call and no log call — whereas a document with no `delivery`
field at all produces exactly the malformed-record log. -/
theorem processWrite_unknown_state_noop (env : Env) (now : Nat) (b d : DocData)
    (del : Delivery) (hdel : d.delivery = some del)
    (h1 : del.state ≠ some "PENDING") (h2 : del.state ≠ some "PROCESSING")
    (h3 : del.state ≠ some "RETRY") (h4 : del.state ≠ some "SUCCESS")
    (h5 : del.state ≠ some "ERROR") :
    processWrite env now { before := .doc b, after := .doc d } = .ok [] ∧
    (∀ d2 : DocData, d2.delivery = none →
      processWrite env now { before := .doc b, after := .doc d2 } =
        .ok [.log .missingDeliveryField]) := by
  constructor
  · rcases hs : del.state with _ | s
    · simp [processWrite, hdel, hs]
    · rw [hs] at h1 h2 h3 h4 h5
      have h1' : s ≠ "PENDING" := fun h => h1 (by rw [h])
      have h2' : s ≠ "PROCESSING" := fun h => h2 (by rw [h])
      have h3' : s ≠ "RETRY" := fun h => h3 (by rw [h])
      have h4' : s ≠ "SUCCESS" := fun h => h4 (by rw [h])
      have h5' : s ≠ "ERROR" := fun h => h5 (by rw [h])
      simp [processWrite, hdel, hs, h1', h2', h3', h4', h5']
  · intro d2 h
    simp [processWrite, h]

/-- C10 witness: the theorem applied to a document with an unrecognized
state `"DONE"` and, for the contrast part, to a document with no
`delivery` field. -/
theorem processWrite_unknown_state_noop_witness :
    processWrite env0 0 { before := .doc docBase, after := .doc docWeird } = .ok [] ∧
    processWrite env0 0 { before := .doc docBase, after := .doc docBase } =
      .ok [.log .missingDeliveryField] :=
  ⟨(processWrite_unknown_state_noop env0 0 docBase docWeird _ rfl
      (by decide) (by decide) (by decide) (by decide) (by decide)).1,
   (processWrite_unknown_state_noop env0 0 docBase docWeird _ rfl
      (by decide) (by decide) (by decide) (by decide) (by decide)).2 docBase rfl⟩

/-- C2: an update event observing `delivery.state` `"PENDING"` or
`"RETRY"` first commits the claim transaction setting
`delivery.state = "PROCESSING"` and
`delivery.leaseExpireTime = now + LEASE_DURATION` — a time strictly
after the claim time by exactly `LEASE_DURATION` = 60 seconds
(60000 ms) — and only then performs the delivery attempt: the whole
trace is the claim update followed by the operations of `deliver`. -/
theorem processWrite_claim_sets_lease (env : Env) (now : Nat) (b d : DocData)
    (del : Delivery) (hdel : d.delivery = some del)
    (hstate : del.state = some "PENDING" ∨ del.state = some "RETRY") :
    processWrite env now { before := .doc b, after := .doc d } =
      .ok (.txUpdate (claimUpdate now) :: deliver env d) ∧
    claimUpdate now =
      [("delivery.state", .str "PROCESSING"),
       ("delivery.leaseExpireTime", .timestamp (now + LEASE_DURATION))] ∧
    LEASE_DURATION = 60 * 1000 ∧
    now < now + LEASE_DURATION := by
  refine ⟨?_, rfl, rfl, by simp [LEASE_DURATION]⟩
  rcases hstate with h | h <;> simp [processWrite, hdel, h]

/-- C2 witness: the theorem applied to a concrete `PENDING` document. -/
theorem processWrite_claim_sets_lease_witness :
    processWrite env0 1000 { before := .doc docBase, after := .doc docPend } =
      .ok (.txUpdate (claimUpdate 1000) :: deliver env0 docPend) ∧
    claimUpdate 1000 =
      [("delivery.state", .str "PROCESSING"),
       ("delivery.leaseExpireTime", .timestamp (1000 + LEASE_DURATION))] ∧
    LEASE_DURATION = 60 * 1000 ∧
    1000 < 1000 + LEASE_DURATION :=
  processWrite_claim_sets_lease env0 1000 docBase docPend _ rfl (Or.inl rfl)

/-- C9: the exported change handler `processQueue` always returns
normally — whatever `processWrite` does — and when `processWrite`
throws, the error is caught and logged (`logs.error`) and the
invocation still returns normally, never propagating the exception. -/
theorem processQueue_swallows_errors (env : Env) (now : Nat) (c : Change) :
    (∃ ops, processQueue env now c = .ok ops) ∧
    (∀ e, processWrite env now c = .error e →
      processQueue env now c = .ok [.log .start, .log (.errorLog e)]) := by
  constructor
  · cases h : processWrite env now c with
    | ok ops =>
      exact ⟨Op.log .start :: ops ++ [Op.log .complete], by simp [processQueue, h]⟩
    | error e =>
      exact ⟨[Op.log .start, Op.log (.errorLog e)], by simp [processQueue, h]⟩
  · intro e he
    simp [processQueue, he]

/-- C9 witness: the theorem applied to a concrete input on which
`processWrite` throws (a `PROCESSING` document with no lease). -/
theorem processQueue_swallows_errors_witness :
    processQueue env0 0 { before := .doc docBase, after := .doc docProcNoLease } =
      .ok [.log .start,
           .log (.errorLog
             "TypeError: Cannot read properties of undefined (reading \x27toMillis\x27)")] :=
  (processQueue_swallows_errors env0 0
      { before := .doc docBase, after := .doc docProcNoLease }).2 _ rfl

theorem countSends_append (a b : List Op) :
    countSends (a ++ b) = countSends a + countSends b := by
  simp [countSends, List.filter_append]

theorem countAttemptIncrs_append (a b : List Op) :
    countAttemptIncrs (a ++ b) = countAttemptIncrs a + countAttemptIncrs b := by
  simp [countAttemptIncrs, List.filter_append]

theorem isAttemptIncrUpdate_errorUpdate (e : String) :
    isAttemptIncrUpdate (.txUpdate (deliverErrorUpdate e)) = true := by
  simp [isAttemptIncrUpdate, deliverErrorUpdate, setField, baseUpdate]

theorem isAttemptIncrUpdate_successUpdate (r : SendInfo) :
    isAttemptIncrUpdate (.txUpdate (deliverSuccessUpdate r)) = true := by
  simp [isAttemptIncrUpdate, deliverSuccessUpdate, setField, baseUpdate]

/-- C5 (amended): every invocation of `deliver` — one delivery
attempt — commits exactly one increment of `delivery.attempts` and
invokes the mail transport at most once, so the transport-invocation
count never exceeds the attempt count; the two can differ, because an
attempt that fails before the transport (payload preparation error, or
zero resolved recipients) still increments `delivery.attempts`. -/
theorem deliver_attempts_and_sends (env : Env) (d : DocData) :
    countAttemptIncrs (deliver env d) = 1 ∧
    countSends (deliver env d) ≤ 1 := by
  unfold deliver
  cases hp : preparePayload env d with
  | error e => exact ⟨rfl, Nat.zero_le 1⟩
  | ok pr =>
    obtain ⟨p, missed⟩ := pr
    dsimp only
    split
    · cases missed <;> exact ⟨rfl, Nat.zero_le 1⟩
    · split
      · cases missed <;> exact ⟨rfl, Nat.zero_le 1⟩
      · split
        · cases missed <;> exact ⟨rfl, Nat.le_refl 1⟩
        · cases missed <;> exact ⟨rfl, Nat.le_refl 1⟩

/-- C5 counterexample: on a document with a message body but no
recipient of any kind, `deliver` increments `delivery.attempts` once
while never invoking the mail transport, so `attempts` does not equal
the number of transport invocations. -/
theorem C5_counterexample :
    countAttemptIncrs (deliver env0 docNoRecip) = 1 ∧
    countSends (deliver env0 docNoRecip) = 0 := by
  constructor <;> decide

/-- C6 (amended): when a templates collection is configured and the
payload names a template, the rendered fields are merged into the
message by `Object.assign(message, rendered)`: the rendered fields
overwrite fields already explicitly set on the message (rendered wins,
not the caller). -/
theorem preparePayload_template_overwrites (env : Env)
    (tf : String → List (String × String) → Msg) (henv : env.templates = some tf)
    (d : DocData) (t : Template) (ht : d.template = some t)
    (n : String) (hn : t.name = some n) (hn2 : n ≠ "")
    (hto : d.to = .absent) (hcc : d.cc = .absent) (hbcc : d.bcc = .absent)
    (htu : d.toUids = .absent) (hcu : d.ccUids = .absent) (hbu : d.bccUids = .absent) :
    preparePayload env d =
      .ok ({ «to» := [], cc := [], bcc := [],
             message := some (objAssign (d.message.getD []) (tf n t.data)),
             fromAddr := d.fromAddr, replyTo := d.replyTo, headers := d.headers },
           none) := by
  simp [preparePayload, henv, ht, hn, hn2, hto, hcc, hbcc, htu, hcu, hbu,
    normalizeAddrs, Recip.truthy, Bind.bind, Except.bind]

/-- C6 witness: the theorem applied to the concrete template
environment, where template `t` renders `subject = "Hi"` over an
explicit `message.subject = "Bye"`. -/
theorem preparePayload_template_overwrites_witness :
    preparePayload envT docT =
      .ok ({ «to» := [], cc := [], bcc := [],
             message := some (objAssign (docT.message.getD [])
               ((fun n _ => if n = "t" then [("subject", "Hi")] else []) "t"
                 ([] : List (String × String)))),
             fromAddr := none, replyTo := none, headers := none },
           none) :=
  preparePayload_template_overwrites envT _ rfl docT _ rfl "t" rfl (by decide)
    rfl rfl rfl rfl rfl rfl

/-- C6 counterexample: rendered `subject = "Hi"` together with explicit
`message.subject = "Bye"` yields final subject `"Hi"`, not `"Bye"` —
the explicitly set field does not take precedence. -/
theorem C6_counterexample :
    preparedSubject envT docT = some "Hi" ∧ preparedSubject envT docT ≠ some "Bye" := by
  constructor <;> decide

/-- C7 (amended): when at least one of `toUids`/`ccUids`/`bccUids` is
present (with a users collection configured), directly supplied
`to`/`cc`/`bcc` addresses are NOT discarded: each output recipient
sequence is the directly supplied addresses of that field — absent,
single-string or array form alike, characterized by what the code's
own normalization returns for it — followed by the resolved addresses
of that field's Uids (unresolvable uids are omitted and reported via
the missing-uids log). -/
theorem preparePayload_uids_merge (env : Env) (henv : env.usersCollection = true)
    (d : DocData) (htpl : d.template = none)
    (dto dcc dbcc tu cu bu : List String)
    (hto : normalizeAddrs "to" d.to = .ok dto)
    (hcc : normalizeAddrs "cc" d.cc = .ok dcc)
    (hbcc : normalizeAddrs "bcc" d.bcc = .ok dbcc)
    (htu : validateUids "toUids" d.toUids = .ok tu)
    (hcu : validateUids "ccUids" d.ccUids = .ok cu)
    (hbu : validateUids "bccUids" d.bccUids = .ok bu)
    (hpresent : d.toUids.truthy = true ∨ d.ccUids.truthy = true ∨
      d.bccUids.truthy = true) :
    preparePayload env d =
      .ok ({ «to» := dto ++ tu.filterMap (fetchEmail env),
             cc := dcc ++ cu.filterMap (fetchEmail env),
             bcc := dbcc ++ bu.filterMap (fetchEmail env),
             message := d.message, fromAddr := d.fromAddr, replyTo := d.replyTo,
             headers := d.headers },
           some ((dedupFirst (tu ++ cu ++ bu)).filter
             (fun u => decide (fetchEmail env u = none)))) := by
  rcases hpresent with h | h | h <;> cases henvt : env.templates <;>
    simp [preparePayload, henvt, htpl, henv, hto, hcc, hbcc, htu, hcu, hbu, h,
      Bind.bind, Except.bind]

/-- C7 witness: the theorem applied to a document supplying a direct
string-form `to`, a direct array-form `cc`, `toUids = ["u1", "u2"]` and
`ccUids = ["u1"]`, in the environment where `u1` resolves to `b@x.com`
and `u2` is unresolvable: each output sequence keeps its direct
addresses and appends its own Uids' resolutions. -/
theorem preparePayload_uids_merge_witness :
    preparePayload envU docU2 =
      .ok ({ «to» := ["a@x.com"] ++ ["u1", "u2"].filterMap (fetchEmail envU),
             cc := ["c@x.com"] ++ ["u1"].filterMap (fetchEmail envU),
             bcc := [] ++ ([] : List String).filterMap (fetchEmail envU),
             message := some [("subject", "s")], fromAddr := none, replyTo := none,
             headers := none },
           some ((dedupFirst (["u1", "u2"] ++ ["u1"] ++ [])).filter
             (fun u => decide (fetchEmail envU u = none)))) :=
  preparePayload_uids_merge envU rfl docU2 rfl ["a@x.com"] ["c@x.com"] []
    ["u1", "u2"] ["u1"] [] rfl rfl rfl rfl rfl rfl (Or.inl rfl)

/-- C7 counterexample: with `toUids` present, the directly supplied
address `a@x.com` still appears in the output `to` sequence (followed
by the uid-resolved `b@x.com`), so the output does not contain only
Uid-resolved addresses. -/
theorem C7_counterexample :
    preparedTo envU docU = ["a@x.com", "b@x.com"] ∧
    "a@x.com" ∈ preparedTo envU docU ∧
    preparedTo envU docU ≠ ["b@x.com"] := by
  refine ⟨by decide, by decide, by decide⟩

/-- C8 (amended): when a templates collection is configured, a payload
whose `template` object lacks a `name` makes `preparePayload` throw the
missing-name validation error, and `deliver` surfaces that failure as
the terminal `ERROR` state with the description recorded in
`delivery.error` — and with no transport call. -/
theorem preparePayload_missing_template_name (env : Env)
    (tf : String → List (String × String) → Msg) (henv : env.templates = some tf)
    (d : DocData) (t : Template) (ht : d.template = some t) (hn : t.name = none) :
    preparePayload env d =
      .error "Error: Template object is missing a \x27name\x27 parameter." ∧
    deliver env d =
      [.log .attemptingDelivery,
       .log (.deliveryError "Error: Template object is missing a \x27name\x27 parameter."),
       .txUpdate (deliverErrorUpdate
         "Error: Template object is missing a \x27name\x27 parameter.")] ∧
    deliverErrorUpdate "Error: Template object is missing a \x27name\x27 parameter." =
      [("delivery.attempts", .increment 1),
       ("delivery.endTime", .serverTimestamp),
       ("delivery.error",
        .str "Error: Template object is missing a \x27name\x27 parameter."),
       ("delivery.leaseExpireTime", .null),
       ("delivery.state", .str "ERROR")] := by
  have hprep : preparePayload env d =
      .error "Error: Template object is missing a \x27name\x27 parameter." := by
    simp [preparePayload, henv, ht, hn, Bind.bind, Except.bind]
  refine ⟨hprep, ?_, by decide⟩
  simp [deliver, hprep]

/-- C8 witness: the theorem applied to the concrete template
environment and a document whose template object has no name. -/
theorem preparePayload_missing_template_name_witness :
    preparePayload envT docNoName =
      .error "Error: Template object is missing a \x27name\x27 parameter." ∧
    deliver envT docNoName =
      [.log .attemptingDelivery,
       .log (.deliveryError "Error: Template object is missing a \x27name\x27 parameter."),
       .txUpdate (deliverErrorUpdate
         "Error: Template object is missing a \x27name\x27 parameter.")] ∧
    deliverErrorUpdate "Error: Template object is missing a \x27name\x27 parameter." =
      [("delivery.attempts", .increment 1),
       ("delivery.endTime", .serverTimestamp),
       ("delivery.error",
        .str "Error: Template object is missing a \x27name\x27 parameter."),
       ("delivery.leaseExpireTime", .null),
       ("delivery.state", .str "ERROR")] :=
  preparePayload_missing_template_name envT _ rfl docNoName _ rfl rfl

/-- C8 counterexample: with NO templates collection configured, the
same payload (a `template` object lacking a `name`) does not make
payload preparation fail at all — it returns successfully — refuting
the claim for every payload. -/
theorem C8_counterexample :
    prepareFails env0 docNoName = false ∧
    preparePayload env0 docNoName =
      .ok ({ «to» := [], cc := [], bcc := [], message := none,
             fromAddr := none, replyTo := none, headers := none }, none) :=
  ⟨by decide, rfl⟩
